import Mathlib

/-!
Verification development for the claude-call request/task orchestration
engine.  The TypeScript modules are shallowly embedded as pure Lean
functions: the global `Map` objects become explicit state records threaded
through every operation, `crypto.randomUUID()` and `Date.now()` become
explicit `id`/`now` arguments, and `setTimeout(fn, delay)` becomes an
explicit list of scheduled deletions.  The embedded functions mirror
`server/store.ts` (the full version with question/cancel support),
`server/task-queue.ts` (the version with sequence tasks),
`server/index.ts` and `server/telegram.ts`.
-/

namespace ClaudeCall

/-! ## JavaScript `Map` as an insertion-ordered association list

A JS `Map` keeps entries in insertion order, `set` on an existing key
updates the entry in place, and keys are unique.  We model it as an
association list whose operations preserve those semantics. -/

/-- `Map.get`: first binding of the key, if any. -/
def mapGet {α : Type} (m : List (String × α)) (k : String) : Option α :=
  match m with
  | [] => none
  | (k2, v) :: rest => if k2 = k then some v else mapGet rest k

/-- `Map.set`: update the existing binding in place, else append. -/
def mapSet {α : Type} (m : List (String × α)) (k : String) (v : α) :
    List (String × α) :=
  match m with
  | [] => [(k, v)]
  | (k2, v2) :: rest =>
      if k2 = k then (k2, v) :: rest else (k2, v2) :: mapSet rest k v

/-- `Map.delete`: remove the key (JS map keys are unique, so removing
every binding of the key is the same operation). -/
def mapDelete {α : Type} (m : List (String × α)) (k : String) :
    List (String × α) :=
  m.filter (fun p => p.1 ≠ k)

/-- `Map.values()` in insertion order. -/
def mapValues {α : Type} (m : List (String × α)) : List α :=
  m.map (·.2)

@[simp] theorem mapGet_nil {α : Type} (k : String) :
    mapGet ([] : List (String × α)) k = none := rfl

@[simp] theorem mapGet_cons {α : Type} (k2 k : String) (v : α) (rest) :
    mapGet ((k2, v) :: rest) k = if k2 = k then some v else mapGet rest k := rfl

@[simp] theorem mapGet_mapSet_self {α : Type} (m : List (String × α)) (k : String) (v : α) :
    mapGet (mapSet m k v) k = some v := by
  induction m with
  | nil => simp [mapSet]
  | cons p rest ih =>
      obtain ⟨k2, v2⟩ := p
      by_cases h : k2 = k <;> simp [mapSet, h, ih]

theorem mapGet_mapSet_ne {α : Type} (m : List (String × α)) (k k2 : String) (v : α)
    (h : k ≠ k2) : mapGet (mapSet m k v) k2 = mapGet m k2 := by
  induction m with
  | nil => simp [mapSet, h]
  | cons p rest ih =>
      obtain ⟨k3, v3⟩ := p
      by_cases h3 : k3 = k
      · subst h3; simp [mapSet, h]
      · simp [mapSet, h3, ih]

@[simp] theorem mapGet_mapDelete_self {α : Type} (m : List (String × α)) (k : String) :
    mapGet (mapDelete m k) k = none := by
  induction m with
  | nil => simp [mapDelete]
  | cons p rest ih =>
      obtain ⟨k2, v2⟩ := p
      by_cases h : k2 = k <;> simp_all [mapDelete, List.filter, h]

/-! ## Data model (`server/types.ts`) -/

/-- `"allow" | "deny"`. -/
inductive Decision
  | allow
  | deny
deriving DecidableEq, Repr

/-- `RequestType = "authorization" | "question"`. -/
inductive RequestType
  | authorization
  | question
deriving DecidableEq, Repr

/-- `QuestionOption {id, label, description?}`. -/
structure QuestionOption where
  id : String
  label : String
  descr : Option String := none
deriving DecidableEq, Repr

/-- `PendingRequest` from `server/types.ts`.  `toolInput` is an opaque
record inspected only through its key set, so it is embedded as the list
of its keys; `toolName` may be `undefined` at runtime when inference
fails, hence `Option`. -/
structure PendingRequest where
  id : String
  sessionId : String
  toolName : Option String
  toolInputKeys : List String
  cwd : Option String := none
  messageId : Option Nat := none
  createdAt : Nat
  resolved : Bool
  type : RequestType
  decision : Option Decision := none
  question : Option String := none
  options : List QuestionOption := []
  selectedOption : Option String := none
  cancelled : Bool := false
deriving DecidableEq, Repr

/-- `SessionState {allowAll, allowedTools, createdAt}`. -/
structure SessionState where
  allowAll : Bool
  allowedTools : List String
  createdAt : Nat
deriving DecidableEq, Repr

/-! ## Request store (`server/store.ts`, full version)

The module-level `pendingRequests` and `sessionStates` maps become a
`StoreState` record threaded through each operation. -/

structure StoreState where
  pendingRequests : List (String × PendingRequest)
  sessionStates : List (String × SessionState)
deriving Repr

/-- `REQUEST_TIMEOUT = Number(process.env.AUTH_TIMEOUT_MS) || 600000`
(default configuration). -/
def REQUEST_TIMEOUT : Nat := 600000

/-- `SESSION_TTL = 60 * 60 * 1000`. -/
def SESSION_TTL : Nat := 60 * 60 * 1000

/-- `createAuthRequest`: fresh id and `Date.now()` passed explicitly. -/
def createAuthRequest (freshId sessionId : String) (toolName : Option String)
    (toolInputKeys : List String) (cwd : Option String) (now : Nat)
    (st : StoreState) : PendingRequest × StoreState :=
  let request : PendingRequest :=
    { id := freshId
      sessionId := sessionId
      toolName := toolName
      toolInputKeys := toolInputKeys
      cwd := cwd
      createdAt := now
      resolved := false
      type := RequestType.authorization }
  (request, { st with pendingRequests := mapSet st.pendingRequests request.id request })

/-- `createQuestionRequest`. -/
def createQuestionRequest (freshId sessionId : String) (toolName : Option String)
    (toolInputKeys : List String) (question : String)
    (options : List QuestionOption) (cwd : Option String) (now : Nat)
    (st : StoreState) : PendingRequest × StoreState :=
  let request : PendingRequest :=
    { id := freshId
      sessionId := sessionId
      toolName := toolName
      toolInputKeys := toolInputKeys
      cwd := cwd
      createdAt := now
      resolved := false
      type := RequestType.question
      question := some question
      options := options }
  (request, { st with pendingRequests := mapSet st.pendingRequests request.id request })

/-- `getRequest`. -/
def getRequest (requestId : String) (st : StoreState) : Option PendingRequest :=
  mapGet st.pendingRequests requestId

/-- `resolveAuthRequest`: returns `false` when the request is missing,
already resolved, or not an authorization. -/
def resolveAuthRequest (requestId : String) (decision : Decision)
    (st : StoreState) : Bool × StoreState :=
  match mapGet st.pendingRequests requestId with
  | none => (false, st)
  | some request =>
      if request.resolved ∨ request.type ≠ RequestType.authorization then
        (false, st)
      else
        let request2 := { request with resolved := true, decision := some decision }
        (true, { st with pendingRequests := mapSet st.pendingRequests requestId request2 })

/-- `resolveQuestionRequest`: returns `false` when the request is missing,
already resolved, or not a question. -/
def resolveQuestionRequest (requestId : String) (selectedOption : String)
    (st : StoreState) : Bool × StoreState :=
  match mapGet st.pendingRequests requestId with
  | none => (false, st)
  | some request =>
      if request.resolved ∨ request.type ≠ RequestType.question then
        (false, st)
      else
        let request2 := { request with resolved := true, selectedOption := some selectedOption }
        (true, { st with pendingRequests := mapSet st.pendingRequests requestId request2 })

/-- `cancelRequest`: marks resolved+cancelled and returns the mutated
request, or `null` when missing or already resolved. -/
def cancelRequest (requestId : String) (st : StoreState) :
    Option PendingRequest × StoreState :=
  match mapGet st.pendingRequests requestId with
  | none => (none, st)
  | some request =>
      if request.resolved then (none, st)
      else
        let request2 := { request with resolved := true, cancelled := true }
        (some request2, { st with pendingRequests := mapSet st.pendingRequests requestId request2 })

/-- `setRequestMessageId`. -/
def setRequestMessageId (requestId : String) (messageId : Nat)
    (st : StoreState) : StoreState :=
  match mapGet st.pendingRequests requestId with
  | none => st
  | some request =>
      { st with pendingRequests :=
          mapSet st.pendingRequests requestId { request with messageId := some messageId } }

/-- `isRequestTimedOut`: `Date.now() - request.createdAt > REQUEST_TIMEOUT`. -/
def isRequestTimedOut (request : PendingRequest) (now : Nat) : Bool :=
  now - request.createdAt > REQUEST_TIMEOUT

/-- `setSessionAllowAll` (inlining `getSessionState` which creates a
default state when missing). -/
def setSessionAllowAll (sessionId : String) (now : Nat) (st : StoreState) : StoreState :=
  match mapGet st.sessionStates sessionId with
  | some state =>
      { st with sessionStates := mapSet st.sessionStates sessionId { state with allowAll := true } }
  | none =>
      let state : SessionState := { allowAll := false, allowedTools := [], createdAt := now }
      { st with sessionStates :=
          mapSet (mapSet st.sessionStates sessionId state) sessionId { state with allowAll := true } }

/-- `isSessionAllowAll`. -/
def isSessionAllowAll (sessionId : String) (st : StoreState) : Bool :=
  match mapGet st.sessionStates sessionId with
  | some state => state.allowAll
  | none => false

/-! ## Task queue and session registry (`server/task-queue.ts`,
the version with sequence tasks) -/

/-- `"message" | "keystroke" | "sequence"` (the `type?` field). -/
inductive TaskType
  | message
  | keystroke
  | sequence
deriving DecidableEq, Repr

/-- `PendingTask` from `server/task-queue.ts`.  The optional `type` field
is `undefined` for plain message tasks. -/
structure PendingTask where
  id : String
  sessionId : String
  message : String
  createdAt : Nat
  acknowledged : Bool
  type : Option TaskType := none
  requestId : Option String := none
  sequence : Option (List String) := none
deriving DecidableEq, Repr

/-- Registered PTY `Session`. -/
structure Session where
  id : String
  shortId : String
  name : String
  cwd : String
  createdAt : Nat
  lastActivity : Nat
deriving DecidableEq, Repr

/-- `completion?: TaskCompletion`. -/
structure TaskCompletion where
  success : Bool
  error : Option String := none
deriving DecidableEq, Repr

/-- The module-level `tasks` and `sessions` maps, plus the deletions
scheduled by `setTimeout(() => tasks.delete(taskId), CLEANUP_DELAY)` that
have not fired yet. -/
structure TaskQueueState where
  tasks : List (String × PendingTask)
  sessions : List (String × Session)
  scheduledDeletions : List String
deriving Repr

/-- `TASK_TIMEOUT = 10 * 60 * 1000`. -/
def TASK_TIMEOUT : Nat := 10 * 60 * 1000

/-- `CLEANUP_DELAY = 5 * 60 * 1000`. -/
def CLEANUP_DELAY : Nat := 5 * 60 * 1000

/-- `touchSession`: mutate `lastActivity` of the session in place. -/
def touchSessionList (sessions : List (String × Session)) (sessionId : String)
    (now : Nat) : List (String × Session) :=
  match sessions with
  | [] => []
  | (k, s) :: rest =>
      if k = sessionId then (k, { s with lastActivity := now }) :: rest
      else (k, s) :: touchSessionList rest sessionId now

/-- `registerSession`: fresh uuid and process cwd passed explicitly. -/
def registerSession (freshId : String) (name cwd : Option String)
    (processCwd : String) (now : Nat) (st : TaskQueueState) :
    Session × TaskQueueState :=
  let shortId := freshId.take 8
  let session : Session :=
    { id := freshId
      shortId := shortId
      name := name.getD ("claude-" ++ shortId)
      cwd := cwd.getD processCwd
      createdAt := now
      lastActivity := now }
  (session, { st with sessions := mapSet st.sessions freshId session })

/-- `unregisterSession`: delete the session and every task it owns. -/
def unregisterSession (sessionId : String) (st : TaskQueueState) :
    Bool × TaskQueueState :=
  match mapGet st.sessions sessionId with
  | none => (false, st)
  | some _ =>
      (true,
        { st with
            sessions := mapDelete st.sessions sessionId
            tasks := st.tasks.filter (fun p => p.2.sessionId ≠ sessionId) })

/-- `getSession`: exact id first, then short-id scan. -/
def getSessionById (idOrShortId : String) (st : TaskQueueState) : Option Session :=
  match mapGet st.sessions idOrShortId with
  | some s => some s
  | none => (mapValues st.sessions).find? (fun s => s.shortId = idOrShortId)

/-- The comparator `(a, b) => b.lastActivity - a.lastActivity` viewed as
the order it induces (`cmp a b ≤ 0`). -/
def sessionBefore (a b : Session) : Prop :=
  b.lastActivity ≤ a.lastActivity

instance : DecidableRel sessionBefore := fun a b =>
  inferInstanceAs (Decidable (b.lastActivity ≤ a.lastActivity))

/-- `getAllSessions`: `Array.from(sessions.values()).sort((a, b) =>
b.lastActivity - a.lastActivity)`.  JS `Array.prototype.sort` is stable,
and for a consistent comparator the stable sorted list is unique, so any
stable sort computes it; we use insertion sort. -/
def getAllSessions (st : TaskQueueState) : List Session :=
  (mapValues st.sessions).insertionSort sessionBefore

/-- `addTask`: plain message task (`type` left `undefined`). -/
def addTask (freshId sessionId message : String) (now : Nat)
    (st : TaskQueueState) : PendingTask × TaskQueueState :=
  let task : PendingTask :=
    { id := freshId
      sessionId := sessionId
      message := message.trim
      createdAt := now
      acknowledged := false }
  (task,
    { st with
        tasks := mapSet st.tasks task.id task
        sessions := touchSessionList st.sessions sessionId now })

/-- `addKeystrokeTask`. -/
def addKeystrokeTask (freshId sessionId keystroke : String)
    (requestId : Option String) (now : Nat) (st : TaskQueueState) :
    PendingTask × TaskQueueState :=
  let task : PendingTask :=
    { id := freshId
      sessionId := sessionId
      message := keystroke
      createdAt := now
      acknowledged := false
      type := some TaskType.keystroke
      requestId := requestId }
  (task,
    { st with
        tasks := mapSet st.tasks task.id task
        sessions := touchSessionList st.sessions sessionId now })

/-- `addSequenceTask`: `message` is the human-readable join. -/
def addSequenceTask (freshId sessionId : String) (keystrokes : List String)
    (requestId : Option String) (now : Nat) (st : TaskQueueState) :
    PendingTask × TaskQueueState :=
  let task : PendingTask :=
    { id := freshId
      sessionId := sessionId
      message := String.intercalate " → " keystrokes
      createdAt := now
      acknowledged := false
      type := some TaskType.sequence
      sequence := some keystrokes
      requestId := requestId }
  (task,
    { st with
        tasks := mapSet st.tasks task.id task
        sessions := touchSessionList st.sessions sessionId now })

/-- The JS comparator in `getPendingTasks`:
keystroke tasks first, then by creation time. -/
def taskCmp (a b : PendingTask) : Int :=
  if a.type = some TaskType.keystroke ∧ b.type ≠ some TaskType.keystroke then -1
  else if a.type ≠ some TaskType.keystroke ∧ b.type = some TaskType.keystroke then 1
  else (a.createdAt : Int) - (b.createdAt : Int)

/-- Boolean order induced by the comparator (`cmp a b ≤ 0`), feeding the
stable sort. -/
def taskLe (a b : PendingTask) : Bool :=
  taskCmp a b ≤ 0

/-- `taskLe` as a relation. -/
def taskBefore (a b : PendingTask) : Prop :=
  taskLe a b = true

instance : DecidableRel taskBefore := fun a b =>
  inferInstanceAs (Decidable (taskLe a b = true))

/-- `getPendingTasks`: unacknowledged tasks of the session, sorted with
the comparator above.  JS `Array.prototype.sort` is stable, and for a
consistent comparator the stable sorted list is unique, so any stable
sort computes it; we use insertion sort. -/
def getPendingTasks (sessionId : String) (st : TaskQueueState) : List PendingTask :=
  ((mapValues st.tasks).filter
      (fun t => t.sessionId = sessionId ∧ ¬t.acknowledged)).insertionSort taskBefore

/-- `acknowledgeTask`: marks the task acknowledged, touches its session,
schedules deletion after `CLEANUP_DELAY`, and returns the task with its
session (which may be gone).  The `completion` argument is only logged. -/
def acknowledgeTask (taskId : String) (completion : Option TaskCompletion)
    (now : Nat) (st : TaskQueueState) :
    Option (PendingTask × Option Session) × TaskQueueState :=
  match mapGet st.tasks taskId with
  | none => (none, st)
  | some task =>
      let task2 := { task with acknowledged := true }
      let sessions2 := touchSessionList st.sessions task.sessionId now
      let session := mapGet sessions2 task.sessionId
      (some (task2, session),
        { tasks := mapSet st.tasks taskId task2
          sessions := sessions2
          scheduledDeletions := st.scheduledDeletions ++ [taskId] })

/-- `getTask`. -/
def getTask (taskId : String) (st : TaskQueueState) : Option PendingTask :=
  mapGet st.tasks taskId

/-- Firing the scheduled `setTimeout` callbacks: each one runs
`tasks.delete(taskId)`. -/
def runScheduledDeletions (scheduled : List String)
    (tasks : List (String × PendingTask)) : List (String × PendingTask) :=
  scheduled.foldl mapDelete tasks

/-! ## HTTP facade (`server/index.ts`) -/

/-- Poll status strings of `PollResponse`. -/
inductive PollStatus
  | pending
  | resolved
  | timeout
  | not_found
deriving DecidableEq, Repr

/-- `PollResponse`. -/
structure PollResponse where
  status : PollStatus
  decision : Option Decision := none
  selectedOption : Option String := none
  elapsed : Option Nat := none
  message : Option String := none
deriving DecidableEq, Repr

/-- `handlePoll` (`GET /poll/:requestId`): resolution is checked before
timeout; an unresolved timed-out authorization is auto-resolved to deny;
an unresolved timed-out question falls through to `pending`. -/
def handlePoll (requestId : String) (now : Nat) (st : StoreState) :
    PollResponse × StoreState :=
  match getRequest requestId st with
  | none => ({ status := PollStatus.not_found }, st)
  | some request =>
      if request.resolved then
        ({ status := PollStatus.resolved
           decision := request.decision
           selectedOption := request.selectedOption }, st)
      else if isRequestTimedOut request now then
        if request.type = RequestType.authorization then
          let st2 := (resolveAuthRequest requestId Decision.deny st).2
          ({ status := PollStatus.timeout
             decision := some Decision.deny
             message := some "Authorization timeout" }, st2)
        else
          ({ status := PollStatus.pending, elapsed := some (now - request.createdAt) }, st)
      else
        ({ status := PollStatus.pending, elapsed := some (now - request.createdAt) }, st)

/-- JS truthiness of an optional string (`undefined` and `""` are falsy). -/
def truthyStr (s : Option String) : Bool :=
  match s with
  | none => false
  | some v => v ≠ ""

/-- Body of `POST /authorize` (`AuthorizeRequest`), with `toolInput`
represented by its key set. -/
structure AuthorizeBody where
  sessionId : Option String := none
  toolName : Option String := none
  toolInputKeys : Option (List String) := none
  cwd : Option String := none
  type : Option String := none
  question : Option String := none
  options : Option (List QuestionOption) := none
deriving DecidableEq, Repr

/-- Response of `POST /authorize`; `error` models the 400 responses. -/
structure AuthorizeResponse where
  requestId : Option String := none
  status : Option String := none
  decision : Option Decision := none
  error : Option String := none
deriving DecidableEq, Repr

/-- The outbound Telegram dispatches triggered by `handleAuthorize`
(`sendAuthRequest` / `sendQuestionRequest`), recorded by request id. -/
inductive ServerNote
  | authNote (requestId : String)
  | questionNote (requestId : String)
deriving DecidableEq, Repr

/-- The tool-name inference block of `handleAuthorize` (checks which keys
`toolInput` has when `toolName` is missing). -/
def inferToolName (toolName : Option String) (toolInputKeys : Option (List String)) :
    Option String :=
  match toolName with
  | some t => some t
  | none =>
      match toolInputKeys with
      | none => none
      | some keys =>
          if keys.contains "command" then some "Bash"
          else if keys.contains "file_path" ∧
              (keys.contains "new_string" ∨ keys.contains "old_string") then some "Edit"
          else if keys.contains "file_path" ∧ keys.contains "content" then some "Write"
          else if keys.contains "questions" then some "AskUserQuestion"
          else none

/-- The `type === "question" && question && options` guard. -/
def isQuestionIntake (body : AuthorizeBody) : Bool :=
  body.type = some "question" ∧ truthyStr body.question ∧ body.options.isSome

/-- `handleAuthorize` (`POST /authorize`): question intake creates a
question request and notifies; an authorization intake on an allow-all
session short-circuits with a fresh unstored id; otherwise an
authorization request is created and a notification dispatched. -/
def handleAuthorize (body : AuthorizeBody) (freshId : String) (now : Nat)
    (st : StoreState) : AuthorizeResponse × StoreState × List ServerNote :=
  if ¬truthyStr body.sessionId then
    ({ error := some "Missing sessionId" }, st, [])
  else
    let sessionId := body.sessionId.getD ""
    let toolName := inferToolName body.toolName body.toolInputKeys
    if isQuestionIntake body then
      let (request, st2) := createQuestionRequest freshId sessionId toolName
        (body.toolInputKeys.getD []) (body.question.getD "") (body.options.getD [])
        body.cwd now st
      ({ requestId := some request.id, status := some "pending" }, st2,
        [ServerNote.questionNote request.id])
    else if isSessionAllowAll sessionId st then
      ({ requestId := some freshId
         status := some "resolved"
         decision := some Decision.allow }, st, [])
    else
      let (request, st2) := createAuthRequest freshId sessionId toolName
        (body.toolInputKeys.getD []) body.cwd now st
      ({ requestId := some request.id, status := some "pending" }, st2,
        [ServerNote.authNote request.id])

/-! ## Telegram callback handling (`server/telegram.ts`) -/

/-- The option-id → keystroke mapping of `processCallback`: a single
uppercase letter maps to `String(charCode - 64)`, an all-digit id passes
through, anything else defaults to `"1"` (with a logged warning). -/
def isSingleUpperLetter (s : String) : Bool :=
  match s.toList with
  | [c] => decide ('A'.toNat ≤ c.toNat ∧ c.toNat ≤ 'Z'.toNat)
  | _ => false

/-- `\d`: an ASCII digit `0`–`9`. -/
def isAsciiDigit (c : Char) : Bool :=
  decide ('0'.toNat ≤ c.toNat ∧ c.toNat ≤ '9'.toNat)

/-- `/^\d+$/`: one or more ASCII digits. -/
def isAllDigits (s : String) : Bool :=
  ¬s.toList.isEmpty ∧ s.toList.all isAsciiDigit

/-- The keystroke computed at `telegram.ts` lines 992–1004. -/
def mapOptionKeystroke (optionId : String) : String :=
  if isSingleUpperLetter optionId then
    toString ((optionId.toList.headD 'A').toNat - 64)
  else if isAllDigits optionId then
    optionId
  else
    "1"

/-- One sub-question of a multi-question notification. -/
structure MQQuestion where
  header : String
  question : String
  options : List QuestionOption
deriving DecidableEq, Repr

/-- `MultiQuestionState` keyed by notification id. -/
structure MultiQuestionState where
  sessionId : String
  questions : List MQQuestion
  currentIndex : Nat
  answers : List String
  cwd : Option String := none
  createdAt : Nat
  messageId : Option Nat := none
deriving DecidableEq, Repr

/-- Observable outcome of `handleMultiQuestionCallback` (which Telegram
answer/edit was produced). -/
inductive MQOutcome
  | expired
  | noSession
  | advanced
  | submitted
deriving DecidableEq, Repr

/-- Result of one multi-question callback: the outcome, the sequence task
it enqueued (if any), and the updated state maps. -/
structure MQResult where
  outcome : MQOutcome
  task : Option PendingTask
  states : List (String × MultiQuestionState)
  queue : TaskQueueState
deriving Repr

/-- The label recorded for a choice: the matching option label if truthy,
else the raw option id (`selectedOption?.label || optionId`). -/
def mqOptionLabel (state : MultiQuestionState) (optionId : String) : String :=
  let currentQ := state.questions.getD state.currentIndex ⟨"", "", []⟩
  match currentQ.options.find? (fun o => o.id = optionId) with
  | some o => if o.label ≠ "" then o.label else optionId
  | none => optionId

/-- `handleMultiQuestionCallback`: expired state and no-session are
reported without touching anything; otherwise the answer is recorded and
either a 2-key sequence (`[optionId, "Tab"]`) is enqueued and the index
advanced, or — on the final sub-question — a 3-key sequence
(`[optionId, "Tab", "Enter"]`) is enqueued and the state deleted. -/
def handleMultiQuestionCallback (notificationId optionId taskFreshId : String)
    (now : Nat) (mq : List (String × MultiQuestionState)) (qs : TaskQueueState) :
    MQResult :=
  match mapGet mq notificationId with
  | none => { outcome := MQOutcome.expired, task := none, states := mq, queue := qs }
  | some state =>
      match getAllSessions qs with
      | [] => { outcome := MQOutcome.noSession, task := none, states := mq, queue := qs }
      | targetSession :: _ =>
          let optionLabel := mqOptionLabel state optionId
          let state2 := { state with answers := state.answers ++ [optionLabel] }
          let isLastQuestion := state.questions.length - 1 ≤ state.currentIndex
          if isLastQuestion then
            let (task, qs2) :=
              addSequenceTask taskFreshId targetSession.id [optionId, "Tab", "Enter"] none now qs
            { outcome := MQOutcome.submitted
              task := some task
              states := mapDelete (mapSet mq notificationId state2) notificationId
              queue := qs2 }
          else
            let (task, qs2) :=
              addSequenceTask taskFreshId targetSession.id [optionId, "Tab"] none now qs
            let state3 := { state2 with currentIndex := state2.currentIndex + 1 }
            { outcome := MQOutcome.advanced
              task := some task
              states := mapSet mq notificationId state3
              queue := qs2 }

/-- One choice event: the chosen option id, the fresh task id, `Date.now()`. -/
structure ChoiceEvent where
  optionId : String
  taskFreshId : String
  now : Nat
deriving DecidableEq, Repr

/-- Drive the multi-step flow through a list of choice events, collecting
per-event outcome and enqueued task. -/
def driveChoices (notificationId : String) (events : List ChoiceEvent)
    (mq : List (String × MultiQuestionState)) (qs : TaskQueueState) :
    List (MQOutcome × Option PendingTask) × List (String × MultiQuestionState) × TaskQueueState :=
  match events with
  | [] => ([], mq, qs)
  | e :: rest =>
      let r := handleMultiQuestionCallback notificationId e.optionId e.taskFreshId e.now mq qs
      let (trace, mq2, qs2) := driveChoices notificationId rest r.states r.queue
      ((r.outcome, r.task) :: trace, mq2, qs2)

/-! ## Generic store operations, for stating once-resolved immutability -/

/-- A resolve call of either kind. -/
inductive ResolveCall
  | authCall (decision : Decision)
  | questionCall (selectedOption : String)
deriving DecidableEq, Repr

/-- Apply a resolve call to the store. -/
def applyResolve (c : ResolveCall) (requestId : String) (st : StoreState) :
    Bool × StoreState :=
  match c with
  | ResolveCall.authCall d => resolveAuthRequest requestId d st
  | ResolveCall.questionCall s => resolveQuestionRequest requestId s st

/-- Any store operation that targets an existing request. -/
inductive StoreOp
  | resolveOp (c : ResolveCall)
  | cancelOp
  | setMessageIdOp (messageId : Nat)
deriving DecidableEq, Repr

/-- Apply a store operation, keeping only the state. -/
def applyStoreOp (op : StoreOp) (requestId : String) (st : StoreState) : StoreState :=
  match op with
  | StoreOp.resolveOp c => (applyResolve c requestId st).2
  | StoreOp.cancelOp => (cancelRequest requestId st).2
  | StoreOp.setMessageIdOp mid => setRequestMessageId requestId mid st

/-! ## Store equation lemmas -/

theorem resolveAuthRequest_eq_none (requestId : String) (d : Decision)
    (st : StoreState) (hm : mapGet st.pendingRequests requestId = none) :
    resolveAuthRequest requestId d st = (false, st) := by
  unfold resolveAuthRequest
  rw [hm]

theorem resolveAuthRequest_eq_blocked (requestId : String) (d : Decision)
    (st : StoreState) (r : PendingRequest)
    (hm : mapGet st.pendingRequests requestId = some r)
    (hc : r.resolved = true ∨ r.type ≠ RequestType.authorization) :
    resolveAuthRequest requestId d st = (false, st) := by
  unfold resolveAuthRequest
  rw [hm]
  simp [hc]

theorem resolveAuthRequest_eq_success (requestId : String) (d : Decision)
    (st : StoreState) (r : PendingRequest)
    (hm : mapGet st.pendingRequests requestId = some r)
    (hres : r.resolved = false) (hty : r.type = RequestType.authorization) :
    resolveAuthRequest requestId d st =
      (true,
        { st with pendingRequests := mapSet st.pendingRequests requestId { r with resolved := true, decision := some d } }) := by
  unfold resolveAuthRequest
  rw [hm]
  simp [hres, hty]

theorem resolveQuestionRequest_eq_none (requestId selectedOption : String)
    (st : StoreState) (hm : mapGet st.pendingRequests requestId = none) :
    resolveQuestionRequest requestId selectedOption st = (false, st) := by
  unfold resolveQuestionRequest
  rw [hm]

theorem resolveQuestionRequest_eq_blocked (requestId selectedOption : String)
    (st : StoreState) (r : PendingRequest)
    (hm : mapGet st.pendingRequests requestId = some r)
    (hc : r.resolved = true ∨ r.type ≠ RequestType.question) :
    resolveQuestionRequest requestId selectedOption st = (false, st) := by
  unfold resolveQuestionRequest
  rw [hm]
  simp [hc]

theorem resolveQuestionRequest_eq_success (requestId selectedOption : String)
    (st : StoreState) (r : PendingRequest)
    (hm : mapGet st.pendingRequests requestId = some r)
    (hres : r.resolved = false) (hty : r.type = RequestType.question) :
    resolveQuestionRequest requestId selectedOption st =
      (true,
        { st with pendingRequests := mapSet st.pendingRequests requestId { r with resolved := true, selectedOption := some selectedOption } }) := by
  unfold resolveQuestionRequest
  rw [hm]
  simp [hres, hty]

theorem cancelRequest_eq_none (requestId : String) (st : StoreState)
    (hm : mapGet st.pendingRequests requestId = none) :
    cancelRequest requestId st = (none, st) := by
  unfold cancelRequest
  rw [hm]

theorem cancelRequest_eq_resolved (requestId : String) (st : StoreState)
    (r : PendingRequest) (hm : mapGet st.pendingRequests requestId = some r)
    (hres : r.resolved = true) :
    cancelRequest requestId st = (none, st) := by
  unfold cancelRequest
  rw [hm]
  simp [hres]

theorem cancelRequest_eq_success (requestId : String) (st : StoreState)
    (r : PendingRequest) (hm : mapGet st.pendingRequests requestId = some r)
    (hres : r.resolved = false) :
    cancelRequest requestId st =
      (some { r with resolved := true, cancelled := true },
        { st with pendingRequests := mapSet st.pendingRequests requestId { r with resolved := true, cancelled := true } }) := by
  unfold cancelRequest
  rw [hm]
  simp [hres]

/-- A resolve call on a request that is already resolved fails and leaves
the store untouched. -/
theorem applyResolve_of_resolved (c : ResolveCall) (requestId : String)
    (st : StoreState) (r : PendingRequest)
    (hr : getRequest requestId st = some r) (hres : r.resolved = true) :
    applyResolve c requestId st = (false, st) := by
  simp only [getRequest] at hr
  cases c with
  | authCall d =>
      exact resolveAuthRequest_eq_blocked requestId d st r hr (Or.inl hres)
  | questionCall s =>
      exact resolveQuestionRequest_eq_blocked requestId s st r hr (Or.inl hres)

/-- A successful resolve call leaves the request stored with
`resolved = true` and the written value in place. -/
theorem applyResolve_true_state (c : ResolveCall) (requestId : String)
    (st : StoreState) (h : (applyResolve c requestId st).1 = true) :
    ∃ r, getRequest requestId st = some r ∧ r.resolved = false ∧
      getRequest requestId (applyResolve c requestId st).2 =
        some (match c with
          | ResolveCall.authCall d => { r with resolved := true, decision := some d }
          | ResolveCall.questionCall s => { r with resolved := true, selectedOption := some s }) := by
  cases c with
  | authCall d =>
      simp only [applyResolve] at h ⊢
      cases hm : mapGet st.pendingRequests requestId with
      | none => rw [resolveAuthRequest_eq_none requestId d st hm] at h; simp at h
      | some r =>
          by_cases hres : r.resolved = true
          · rw [resolveAuthRequest_eq_blocked requestId d st r hm (Or.inl hres)] at h
            simp at h
          · by_cases hty : r.type = RequestType.authorization
            · rw [resolveAuthRequest_eq_success requestId d st r hm
                (by simpa using hres) hty]
              exact ⟨r, by simpa [getRequest] using hm, by simpa using hres,
                by simp [getRequest]⟩
            · rw [resolveAuthRequest_eq_blocked requestId d st r hm (Or.inr hty)] at h
              simp at h
  | questionCall s =>
      simp only [applyResolve] at h ⊢
      cases hm : mapGet st.pendingRequests requestId with
      | none => rw [resolveQuestionRequest_eq_none requestId s st hm] at h; simp at h
      | some r =>
          by_cases hres : r.resolved = true
          · rw [resolveQuestionRequest_eq_blocked requestId s st r hm (Or.inl hres)] at h
            simp at h
          · by_cases hty : r.type = RequestType.question
            · rw [resolveQuestionRequest_eq_success requestId s st r hm
                (by simpa using hres) hty]
              exact ⟨r, by simpa [getRequest] using hm, by simpa using hres,
                by simp [getRequest]⟩
            · rw [resolveQuestionRequest_eq_blocked requestId s st r hm (Or.inr hty)] at h
              simp at h

/-- C1: at most one of two resolve calls on the same id succeeds; the
second call fails and leaves the stored decision and selected option
exactly as the first successful call wrote them; and once a request is
resolved, no resolve, cancel, or message-id update changes its
`decision` or `selectedOption`. -/
theorem resolve_first_writer_wins (st : StoreState) (requestId : String)
    (c1 c2 : ResolveCall) :
    (¬((applyResolve c1 requestId st).1 = true ∧
        (applyResolve c2 requestId (applyResolve c1 requestId st).2).1 = true)) ∧
    ((applyResolve c1 requestId st).1 = true →
      (applyResolve c2 requestId (applyResolve c1 requestId st).2).1 = false ∧
      (applyResolve c2 requestId (applyResolve c1 requestId st).2).2 =
        (applyResolve c1 requestId st).2) ∧
    (∀ (op : StoreOp) (r : PendingRequest),
      getRequest requestId st = some r → r.resolved = true →
      (getRequest requestId (applyStoreOp op requestId st)).map PendingRequest.decision =
        some r.decision ∧
      (getRequest requestId (applyStoreOp op requestId st)).map PendingRequest.selectedOption =
        some r.selectedOption) := by
  have hsecond : (applyResolve c1 requestId st).1 = true →
      applyResolve c2 requestId (applyResolve c1 requestId st).2 =
        (false, (applyResolve c1 requestId st).2) := by
    intro h1
    obtain ⟨r, _, _, hafter⟩ := applyResolve_true_state c1 requestId st h1
    cases c1 with
    | authCall d =>
        exact applyResolve_of_resolved c2 requestId _ _ hafter rfl
    | questionCall s =>
        exact applyResolve_of_resolved c2 requestId _ _ hafter rfl
  refine ⟨?_, ?_, ?_⟩
  · rintro ⟨h1, h2⟩
    rw [hsecond h1] at h2
    simp at h2
  · intro h1
    rw [hsecond h1]
    exact ⟨rfl, rfl⟩
  · intro op r hr hres
    cases op with
    | resolveOp c =>
        simp only [applyStoreOp]
        rw [applyResolve_of_resolved c requestId st r hr hres]
        simp [hr]
    | cancelOp =>
        simp only [applyStoreOp]
        rw [cancelRequest_eq_resolved requestId st r (by simpa [getRequest] using hr) hres]
        simp [hr]
    | setMessageIdOp mid =>
        simp only [applyStoreOp, setRequestMessageId]
        simp only [getRequest] at hr
        rw [hr]
        simp [getRequest]

/-- Concrete run of C1: a resolved-allow authorization rejects a second
deny and keeps `decision = allow`. -/
theorem resolve_first_writer_wins_witness :
    ((applyResolve (ResolveCall.authCall Decision.allow) "r"
        { pendingRequests :=
            [("r", { id := "r", sessionId := "s", toolName := some "Bash",
                     toolInputKeys := ["command"], createdAt := 0, resolved := false,
                     type := RequestType.authorization })]
          sessionStates := [] }).1 = true) ∧
    ((applyResolve (ResolveCall.authCall Decision.deny) "r"
        (applyResolve (ResolveCall.authCall Decision.allow) "r"
          { pendingRequests :=
              [("r", { id := "r", sessionId := "s", toolName := some "Bash",
                       toolInputKeys := ["command"], createdAt := 0, resolved := false,
                       type := RequestType.authorization })]
            sessionStates := [] }).2).1 = false) := by
  refine ⟨by decide, ?_⟩
  exact ((resolve_first_writer_wins
    { pendingRequests :=
        [("r", { id := "r", sessionId := "s", toolName := some "Bash",
                 toolInputKeys := ["command"], createdAt := 0, resolved := false,
                 type := RequestType.authorization })]
      sessionStates := [] } "r"
    (ResolveCall.authCall Decision.allow) (ResolveCall.authCall Decision.deny)).2.1
    (by decide)).1

/-- C7: `cancelRequest` marks an existing unresolved request
resolved+cancelled and returns it; it returns `null` for a missing or
already-resolved request; and after a successful cancellation every
resolve call on that id fails. -/
theorem cancelRequest_terminal (st : StoreState) (requestId : String) :
    (∀ r, getRequest requestId st = some r → r.resolved = false →
      cancelRequest requestId st =
        (some { r with resolved := true, cancelled := true },
          { st with pendingRequests := mapSet st.pendingRequests requestId { r with resolved := true, cancelled := true } })) ∧
    (getRequest requestId st = none → cancelRequest requestId st = (none, st)) ∧
    (∀ r, getRequest requestId st = some r → r.resolved = true →
      cancelRequest requestId st = (none, st)) ∧
    (∀ r, getRequest requestId st = some r → r.resolved = false →
      ∀ c : ResolveCall,
        (applyResolve c requestId (cancelRequest requestId st).2).1 = false) := by
  refine ⟨?_, ?_, ?_, ?_⟩
  · intro r hr hres
    exact cancelRequest_eq_success requestId st r (by simpa [getRequest] using hr) hres
  · intro hr
    exact cancelRequest_eq_none requestId st (by simpa [getRequest] using hr)
  · intro r hr hres
    exact cancelRequest_eq_resolved requestId st r (by simpa [getRequest] using hr) hres
  · intro r hr hres c
    rw [cancelRequest_eq_success requestId st r (by simpa [getRequest] using hr) hres]
    rw [applyResolve_of_resolved c requestId _
      { r with resolved := true, cancelled := true } (by simp [getRequest]) rfl]

/-- Concrete run of C7: cancelling a fresh question request succeeds, and
a subsequent resolve of it fails. -/
theorem cancelRequest_terminal_witness :
    ((getRequest "q"
        { pendingRequests :=
            [("q", { id := "q", sessionId := "s", toolName := some "AskUserQuestion",
                     toolInputKeys := ["questions"], createdAt := 0, resolved := false,
                     type := RequestType.question })]
          sessionStates := [] } =
      some { id := "q", sessionId := "s", toolName := some "AskUserQuestion",
             toolInputKeys := ["questions"], createdAt := 0, resolved := false,
             type := RequestType.question }) ∧
    (applyResolve (ResolveCall.questionCall "A") "q"
        (cancelRequest "q"
          { pendingRequests :=
              [("q", { id := "q", sessionId := "s", toolName := some "AskUserQuestion",
                       toolInputKeys := ["questions"], createdAt := 0, resolved := false,
                       type := RequestType.question })]
            sessionStates := [] }).2).1 = false) := by
  refine ⟨by decide, ?_⟩
  exact (cancelRequest_terminal
    { pendingRequests :=
        [("q", { id := "q", sessionId := "s", toolName := some "AskUserQuestion",
                 toolInputKeys := ["questions"], createdAt := 0, resolved := false,
                 type := RequestType.question })]
      sessionStates := [] } "q").2.2.2
    { id := "q", sessionId := "s", toolName := some "AskUserQuestion",
      toolInputKeys := ["questions"], createdAt := 0, resolved := false,
      type := RequestType.question }
    (by decide) (by decide) (ResolveCall.questionCall "A")

/-- C2: a poll of a resolved request reports `resolved` with the stored
decision and selected option and does not touch the store, for every
polling time — in particular also after the timeout budget elapsed,
because `handlePoll` checks `resolved` before the timeout. -/
theorem handlePoll_resolved_wins (st : StoreState) (requestId : String)
    (now : Nat) (r : PendingRequest)
    (hr : getRequest requestId st = some r) (hres : r.resolved = true) :
    handlePoll requestId now st =
      ({ status := PollStatus.resolved
         decision := r.decision
         selectedOption := r.selectedOption }, st) := by
  unfold handlePoll
  rw [hr]
  simp [hres]

/-- Concrete run of C2: a request resolved to allow polls as `resolved`
at a time far past its timeout budget. -/
theorem handlePoll_resolved_wins_witness :
    handlePoll "r" (REQUEST_TIMEOUT * 5)
      { pendingRequests :=
          [("r", { id := "r", sessionId := "s", toolName := some "Bash",
                   toolInputKeys := ["command"], createdAt := 0, resolved := true,
                   type := RequestType.authorization, decision := some Decision.allow })]
        sessionStates := [] } =
      ({ status := PollStatus.resolved, decision := some Decision.allow },
        { pendingRequests :=
            [("r", { id := "r", sessionId := "s", toolName := some "Bash",
                     toolInputKeys := ["command"], createdAt := 0, resolved := true,
                     type := RequestType.authorization, decision := some Decision.allow })]
          sessionStates := [] }) :=
  handlePoll_resolved_wins
    { pendingRequests :=
        [("r", { id := "r", sessionId := "s", toolName := some "Bash",
                 toolInputKeys := ["command"], createdAt := 0, resolved := true,
                 type := RequestType.authorization, decision := some Decision.allow })]
      sessionStates := [] } "r" (REQUEST_TIMEOUT * 5)
    { id := "r", sessionId := "s", toolName := some "Bash",
      toolInputKeys := ["command"], createdAt := 0, resolved := true,
      type := RequestType.authorization, decision := some Decision.allow }
    (by decide) rfl

/-- C3: polling an unresolved timed-out authorization auto-resolves it to
deny and reports `timeout`/deny; a second poll then still reports the
same deny decision (now as `resolved`) and mutates nothing further; a
timed-out question is not auto-resolved and polls as `pending`. -/
theorem handlePoll_timeout_policy (st : StoreState) (requestId : String)
    (now now2 : Nat) (r : PendingRequest)
    (hr : getRequest requestId st = some r) (hres : r.resolved = false)
    (hto : isRequestTimedOut r now = true) :
    (r.type = RequestType.authorization →
      (handlePoll requestId now st).1 =
        { status := PollStatus.timeout
          decision := some Decision.deny
          message := some "Authorization timeout" } ∧
      getRequest requestId (handlePoll requestId now st).2 =
        some { r with resolved := true, decision := some Decision.deny } ∧
      (handlePoll requestId now2 (handlePoll requestId now st).2).1 =
        { status := PollStatus.resolved
          decision := some Decision.deny
          selectedOption := r.selectedOption } ∧
      (handlePoll requestId now2 (handlePoll requestId now st).2).2 =
        (handlePoll requestId now st).2) ∧
    (r.type = RequestType.question →
      handlePoll requestId now st =
        ({ status := PollStatus.pending, elapsed := some (now - r.createdAt) }, st)) := by
  constructor
  · intro hty
    have hfirst : handlePoll requestId now st =
        ({ status := PollStatus.timeout
           decision := some Decision.deny
           message := some "Authorization timeout" },
          { st with pendingRequests := mapSet st.pendingRequests requestId { r with resolved := true, decision := some Decision.deny } }) := by
      unfold handlePoll
      rw [hr]
      rw [resolveAuthRequest_eq_success requestId Decision.deny st r
        (by simpa [getRequest] using hr) hres hty]
      simp [hres, hto, hty]
    rw [hfirst]
    have hafter : getRequest requestId
        ({ st with pendingRequests := mapSet st.pendingRequests requestId { r with resolved := true, decision := some Decision.deny } } : StoreState) =
        some { r with resolved := true, decision := some Decision.deny } := by
      simp [getRequest]
    refine ⟨rfl, hafter, ?_, ?_⟩
    · rw [handlePoll_resolved_wins _ requestId now2 _ hafter rfl]
    · rw [handlePoll_resolved_wins _ requestId now2 _ hafter rfl]
  · intro hty
    have hty2 : r.type ≠ RequestType.authorization := by
      rw [hty]
      intro hcontra
      cases hcontra
    unfold handlePoll
    rw [hr]
    simp [hres, hto, hty2]

/-- Concrete run of C3: an unresolved authorization polled just past its
timeout reports timeout/deny, and the follow-up poll reports the stored
deny. -/
theorem handlePoll_timeout_policy_witness :
    ((handlePoll "r" (REQUEST_TIMEOUT + 1)
        { pendingRequests :=
            [("r", { id := "r", sessionId := "s", toolName := some "Bash",
                     toolInputKeys := ["command"], createdAt := 0, resolved := false,
                     type := RequestType.authorization })]
          sessionStates := [] }).1 =
      { status := PollStatus.timeout, decision := some Decision.deny,
        message := some "Authorization timeout" }) ∧
    ((handlePoll "r" (REQUEST_TIMEOUT + 2)
        (handlePoll "r" (REQUEST_TIMEOUT + 1)
          { pendingRequests :=
              [("r", { id := "r", sessionId := "s", toolName := some "Bash",
                       toolInputKeys := ["command"], createdAt := 0, resolved := false,
                       type := RequestType.authorization })]
            sessionStates := [] }).2).1 =
      { status := PollStatus.resolved, decision := some Decision.deny }) := by
  have h := handlePoll_timeout_policy
    { pendingRequests :=
        [("r", { id := "r", sessionId := "s", toolName := some "Bash",
                 toolInputKeys := ["command"], createdAt := 0, resolved := false,
                 type := RequestType.authorization })]
      sessionStates := [] } "r" (REQUEST_TIMEOUT + 1) (REQUEST_TIMEOUT + 2)
    { id := "r", sessionId := "s", toolName := some "Bash",
      toolInputKeys := ["command"], createdAt := 0, resolved := false,
      type := RequestType.authorization }
    (by decide) rfl (by decide)
  obtain ⟨hauth, -⟩ := h
  obtain ⟨h1, -, h3, -⟩ := hauth rfl
  exact ⟨h1, h3⟩

/-! ## Allow-all short circuit (C4, C10) -/

/-- One `POST /authorize` call: the body together with the fresh uuid and
`Date.now()` the handler would draw. -/
structure IntakeEvent where
  body : AuthorizeBody
  freshId : String
  now : Nat
deriving DecidableEq, Repr

/-- Run a list of intake events, collecting responses and dispatched
notifications. -/
def runAuthorizeAll (events : List IntakeEvent) (st : StoreState) :
    List AuthorizeResponse × StoreState × List ServerNote :=
  match events with
  | [] => ([], st, [])
  | e :: rest =>
      let (resp, st2, notes) := handleAuthorize e.body e.freshId e.now st
      let (resps, st3, notes2) := runAuthorizeAll rest st2
      (resp :: resps, st3, notes ++ notes2)

/-- On an allow-all session, an authorization intake short-circuits:
immediate resolved/allow response carrying the fresh id, no state change,
no notification. -/
theorem handleAuthorize_allowAll (body : AuthorizeBody) (freshId sid : String)
    (now : Nat) (st : StoreState)
    (hbs : body.sessionId = some sid) (hsid : sid ≠ "")
    (hnq : isQuestionIntake body = false)
    (hall : isSessionAllowAll sid st = true) :
    handleAuthorize body freshId now st =
      ({ requestId := some freshId
         status := some "resolved"
         decision := some Decision.allow }, st, []) := by
  unfold handleAuthorize
  have ht : truthyStr body.sessionId = true := by
    simp [truthyStr, hbs, hsid]
  simp [ht, hnq, hbs, hall, truthyStr, hsid]

/-- C4: with `allowAll` set for a source session, any number of
consecutive authorization intakes on that session leaves the whole store
untouched (so no PendingRequest is created), dispatches no notification,
and answers each call with resolved/allow. -/
theorem allowAll_no_requests_no_notifications (sid : String) (st : StoreState)
    (hall : isSessionAllowAll sid st = true) (hsid : sid ≠ "")
    (events : List IntakeEvent)
    (hev : ∀ e ∈ events, e.body.sessionId = some sid ∧ isQuestionIntake e.body = false) :
    (runAuthorizeAll events st).2.1 = st ∧
    (runAuthorizeAll events st).2.2 = [] ∧
    ∀ resp ∈ (runAuthorizeAll events st).1,
      resp.status = some "resolved" ∧ resp.decision = some Decision.allow := by
  induction events with
  | nil => simp [runAuthorizeAll]
  | cons e rest ih =>
      obtain ⟨hbs, hnq⟩ := hev e (List.mem_cons_self e rest)
      have hstep := handleAuthorize_allowAll e.body e.freshId sid e.now st hbs hsid hnq hall
      have hrest := ih (fun e2 he2 => hev e2 (List.mem_cons_of_mem e he2))
      simp only [runAuthorizeAll, hstep]
      refine ⟨hrest.1, by simpa using hrest.2.1, ?_⟩
      intro resp hresp
      rcases List.mem_cons.mp hresp with hhead | htail
      · subst hhead
        exact ⟨rfl, rfl⟩
      · exact hrest.2.2 resp htail

/-- Concrete run of C4: two consecutive authorization intakes on an
allow-all session leave the store unchanged and notify nobody. -/
theorem allowAll_no_requests_no_notifications_witness :
    (runAuthorizeAll
        [ { body := { sessionId := some "sess", toolName := some "Bash",
                      toolInputKeys := some ["command"] },
            freshId := "id1", now := 10 },
          { body := { sessionId := some "sess", toolName := some "Write",
                      toolInputKeys := some ["file_path", "content"] },
            freshId := "id2", now := 20 } ]
        { pendingRequests := []
          sessionStates := [("sess", { allowAll := true, allowedTools := [], createdAt := 0 })] }).2.1 =
      { pendingRequests := []
        sessionStates := [("sess", { allowAll := true, allowedTools := [], createdAt := 0 })] } ∧
    (runAuthorizeAll
        [ { body := { sessionId := some "sess", toolName := some "Bash",
                      toolInputKeys := some ["command"] },
            freshId := "id1", now := 10 },
          { body := { sessionId := some "sess", toolName := some "Write",
                      toolInputKeys := some ["file_path", "content"] },
            freshId := "id2", now := 20 } ]
        { pendingRequests := []
          sessionStates := [("sess", { allowAll := true, allowedTools := [], createdAt := 0 })] }).2.2 = [] := by
  have h := allowAll_no_requests_no_notifications "sess"
    { pendingRequests := []
      sessionStates := [("sess", { allowAll := true, allowedTools := [], createdAt := 0 })] }
    (by decide) (by decide)
    [ { body := { sessionId := some "sess", toolName := some "Bash",
                  toolInputKeys := some ["command"] },
        freshId := "id1", now := 10 },
      { body := { sessionId := some "sess", toolName := some "Write",
                  toolInputKeys := some ["file_path", "content"] },
        freshId := "id2", now := 20 } ]
    (by intro e he; fin_cases he <;> exact ⟨rfl, by decide⟩)
  exact ⟨h.1, h.2.1⟩

/-- C10: the resolved/allow response of an allow-all short circuit
carries a fresh id that is stored nowhere, so polling that id answers
`not_found` rather than the reported allow decision. -/
theorem allowAll_requestId_not_found (body : AuthorizeBody)
    (freshId sid : String) (now now2 : Nat) (st : StoreState)
    (hbs : body.sessionId = some sid) (hsid : sid ≠ "")
    (hnq : isQuestionIntake body = false)
    (hall : isSessionAllowAll sid st = true)
    (hfresh : getRequest freshId st = none) :
    (handleAuthorize body freshId now st).1 =
      { requestId := some freshId
        status := some "resolved"
        decision := some Decision.allow } ∧
    (handleAuthorize body freshId now st).2.1 = st ∧
    (handlePoll freshId now2 (handleAuthorize body freshId now st).2.1).1 =
      { status := PollStatus.not_found } := by
  have hshort := handleAuthorize_allowAll body freshId sid now st hbs hsid hnq hall
  rw [hshort]
  refine ⟨rfl, rfl, ?_⟩
  unfold handlePoll
  rw [hfresh]

/-- Concrete run of C10: the short-circuit id "fresh" polls as
`not_found` right after the intake reported resolved/allow. -/
theorem allowAll_requestId_not_found_witness :
    ((handleAuthorize
        { sessionId := some "sess", toolName := some "Bash",
          toolInputKeys := some ["command"] } "fresh" 10
        { pendingRequests := []
          sessionStates := [("sess", { allowAll := true, allowedTools := [], createdAt := 0 })] }).1 =
      { requestId := some "fresh", status := some "resolved",
        decision := some Decision.allow }) ∧
    ((handlePoll "fresh" 11
        (handleAuthorize
          { sessionId := some "sess", toolName := some "Bash",
            toolInputKeys := some ["command"] } "fresh" 10
          { pendingRequests := []
            sessionStates := [("sess", { allowAll := true, allowedTools := [], createdAt := 0 })] }).2.1).1 =
      { status := PollStatus.not_found }) := by
  have h := allowAll_requestId_not_found
    { sessionId := some "sess", toolName := some "Bash",
      toolInputKeys := some ["command"] } "fresh" "sess" 10 11
    { pendingRequests := []
      sessionStates := [("sess", { allowAll := true, allowedTools := [], createdAt := 0 })] }
    rfl (by decide) (by decide) (by decide) (by decide)
  exact ⟨h.1, h.2.2⟩

/-! ## Keystroke mapping (C8) -/

/-- A single uppercase letter is never all-digits (codes 65–90 vs
48–57). -/
theorem isSingleUpperLetter_not_digits (s : String)
    (h : isSingleUpperLetter s = true) : isAllDigits s = false := by
  unfold isSingleUpperLetter at h
  unfold isAllDigits
  cases hs : s.toList with
  | nil => rw [hs] at h; simp at h
  | cons c rest =>
      cases rest with
      | nil =>
          rw [hs] at h
          simp only [decide_eq_true_eq] at h
          simp only [hs, List.all_cons, List.all_nil, List.isEmpty_cons]
          have : isAsciiDigit c = false := by
            unfold isAsciiDigit
            simp only [decide_eq_false_iff_not]
            intro hcontra
            have h65 : (65 : Nat) ≤ c.toNat := h.1
            have h57 : c.toNat ≤ 57 := hcontra.2
            omega
          simp [this]
      | cons c2 rest2 => rw [hs] at h; simp at h

/-- C8: the option-id → keystroke mapping sends a single uppercase
letter to its 1-based alphabetical position, passes an all-digit id
through unchanged, and defaults every other shape to `"1"`. -/
theorem mapOptionKeystroke_spec :
    (∀ c : Char, 'A'.toNat ≤ c.toNat → c.toNat ≤ 'Z'.toNat →
      mapOptionKeystroke (String.mk [c]) = toString (c.toNat - 'A'.toNat + 1)) ∧
    (∀ s : String, isAllDigits s = true → mapOptionKeystroke s = s) ∧
    (∀ s : String, isSingleUpperLetter s = false → isAllDigits s = false →
      mapOptionKeystroke s = "1") := by
  refine ⟨?_, ?_, ?_⟩
  · intro c hA hZ
    have hlist : (String.mk [c]).toList = [c] := rfl
    have hupper : isSingleUpperLetter (String.mk [c]) = true := by
      unfold isSingleUpperLetter
      rw [hlist]
      simp only [decide_eq_true_eq]
      exact ⟨hA, hZ⟩
    unfold mapOptionKeystroke
    rw [hupper]
    simp only [if_true, hlist, List.headD_cons]
    have h65 : (65 : Nat) ≤ c.toNat := hA
    have : c.toNat - 64 = c.toNat - 'A'.toNat + 1 := by
      have : 'A'.toNat = 65 := rfl
      omega
    rw [this]
  · intro s hdig
    unfold mapOptionKeystroke
    by_cases hup : isSingleUpperLetter s = true
    · rw [isSingleUpperLetter_not_digits s hup] at hdig
      cases hdig
    · simp only [Bool.not_eq_true] at hup
      rw [hup, hdig]
      simp
  · intro s hup hdig
    unfold mapOptionKeystroke
    rw [hup, hdig]
    simp

/-- Concrete runs of C8: `B → "2"`, `"12"` passes through, `"foo"`
defaults to `"1"`. -/
theorem mapOptionKeystroke_spec_witness :
    (mapOptionKeystroke (String.mk ['B']) = toString ('B'.toNat - 'A'.toNat + 1) ∧
      toString ('B'.toNat - 'A'.toNat + 1) = "2") ∧
    mapOptionKeystroke "12" = "12" ∧
    mapOptionKeystroke "foo" = "1" := by
  refine ⟨⟨mapOptionKeystroke_spec.1 'B' (by decide) (by decide), by decide⟩, ?_, ?_⟩
  · exact mapOptionKeystroke_spec.2.1 "12" (by decide)
  · exact mapOptionKeystroke_spec.2.2 "foo" (by decide) (by decide)

/-! ## Pending-task ordering (C5) -/

/-- What the comparator means: keystroke tasks strictly precede
non-keystroke tasks; otherwise creation time decides. -/
theorem taskLe_iff (a b : PendingTask) :
    taskLe a b = true ↔
      ((a.type = some TaskType.keystroke ∧ ¬b.type = some TaskType.keystroke) ∨
        ((a.type = some TaskType.keystroke ↔ b.type = some TaskType.keystroke) ∧
          a.createdAt ≤ b.createdAt)) := by
  unfold taskLe taskCmp
  by_cases ha : a.type = some TaskType.keystroke <;>
    by_cases hb : b.type = some TaskType.keystroke <;>
      simp [ha, hb] <;> omega

instance : IsTotal PendingTask taskBefore := by
  constructor
  intro a b
  unfold taskBefore
  rw [taskLe_iff, taskLe_iff]
  by_cases ha : a.type = some TaskType.keystroke <;>
    by_cases hb : b.type = some TaskType.keystroke <;>
      simp [ha, hb] <;> omega

instance : IsTrans PendingTask taskBefore := by
  constructor
  intro a b c hab hbc
  unfold taskBefore at *
  rw [taskLe_iff] at *
  rcases hab with ⟨ha, hb⟩ | ⟨hiab, hle⟩ <;> rcases hbc with ⟨hb2, hc⟩ | ⟨hibc, hle2⟩
  · exact absurd hb2 hb
  · exact Or.inl ⟨ha, fun hc => hb (hibc.mpr hc)⟩
  · exact Or.inl ⟨hiab.mpr hb2, hc⟩
  · exact Or.inr ⟨hiab.trans hibc, le_trans hle hle2⟩

/-- Amended C5: `getPendingTasks` returns exactly the unacknowledged
tasks of the session, with every keystroke task before every
non-keystroke task and creation order inside the keystroke group and
inside the rest; `sequence` tasks are not prioritized — they sort with
the message tasks by creation time. -/
theorem getPendingTasks_order (sessionId : String) (st : TaskQueueState) :
    List.Perm (getPendingTasks sessionId st)
      ((mapValues st.tasks).filter (fun t => t.sessionId = sessionId ∧ ¬t.acknowledged)) ∧
    (getPendingTasks sessionId st).Pairwise (fun a b =>
      (b.type = some TaskType.keystroke → a.type = some TaskType.keystroke) ∧
      ((a.type = some TaskType.keystroke ↔ b.type = some TaskType.keystroke) →
        a.createdAt ≤ b.createdAt)) := by
  constructor
  · exact List.perm_insertionSort taskBefore _
  · have hs := List.sorted_insertionSort taskBefore
      ((mapValues st.tasks).filter (fun t => t.sessionId = sessionId ∧ ¬t.acknowledged))
    have himp : ∀ a b : PendingTask, taskBefore a b →
        (b.type = some TaskType.keystroke → a.type = some TaskType.keystroke) ∧
        ((a.type = some TaskType.keystroke ↔ b.type = some TaskType.keystroke) →
          a.createdAt ≤ b.createdAt) := by
      intro a b hab
      unfold taskBefore at hab
      rw [taskLe_iff] at hab
      rcases hab with ⟨ha, hb⟩ | ⟨hiab, hle⟩
      · exact ⟨fun hb2 => absurd hb2 hb, fun hi => absurd (hi.mp ha) hb⟩
      · exact ⟨fun hb2 => hiab.mpr hb2, fun _ => hle⟩
    exact List.Pairwise.imp (fun hab => himp _ _ hab) hs

/-- Claim C5 as stated is false: with a message task created before a
sequence task in the same session, `getPendingTasks` returns the message
task first, so not all keystroke/sequence tasks precede the message
tasks. -/
theorem getPendingTasks_order_counterexample :
    ((getPendingTasks "s"
        { tasks :=
            [("t1", { id := "t1", sessionId := "s", message := "hello",
                      createdAt := 100, acknowledged := false }),
             ("t2", { id := "t2", sessionId := "s", message := "1 → Tab",
                      createdAt := 200, acknowledged := false,
                      type := some TaskType.sequence, sequence := some ["1", "Tab"] })]
          sessions := [], scheduledDeletions := [] }).map PendingTask.type =
      [none, some TaskType.sequence]) ∧
    ¬ (getPendingTasks "s"
        { tasks :=
            [("t1", { id := "t1", sessionId := "s", message := "hello",
                      createdAt := 100, acknowledged := false }),
             ("t2", { id := "t2", sessionId := "s", message := "1 → Tab",
                      createdAt := 200, acknowledged := false,
                      type := some TaskType.sequence, sequence := some ["1", "Tab"] })]
          sessions := [], scheduledDeletions := [] }).Pairwise
      (fun a b =>
        (b.type = some TaskType.keystroke ∨ b.type = some TaskType.sequence) →
        (a.type = some TaskType.keystroke ∨ a.type = some TaskType.sequence)) := by
  constructor
  · decide
  · decide

/-! ## Acknowledgment idempotence (C6) -/

theorem mapDelete_mapDelete {α : Type} (m : List (String × α)) (k : String) :
    mapDelete (mapDelete m k) k = mapDelete m k := by
  unfold mapDelete
  induction m with
  | nil => rfl
  | cons p rest ih =>
      by_cases h : p.1 = k <;> simp [h, ih]

theorem runScheduledDeletions_append_self (s : List String) (t : String)
    (m : List (String × PendingTask)) :
    runScheduledDeletions ((s ++ [t]) ++ [t]) m = runScheduledDeletions (s ++ [t]) m := by
  unfold runScheduledDeletions
  rw [List.foldl_append, List.foldl_append]
  simp [mapDelete_mapDelete]

theorem acknowledgeTask_eq_found (taskId : String)
    (completion : Option TaskCompletion) (now : Nat) (st : TaskQueueState)
    (task : PendingTask) (hm : mapGet st.tasks taskId = some task) :
    acknowledgeTask taskId completion now st =
      (some ({ task with acknowledged := true },
          mapGet (touchSessionList st.sessions task.sessionId now) task.sessionId),
        { tasks := mapSet st.tasks taskId { task with acknowledged := true }
          sessions := touchSessionList st.sessions task.sessionId now
          scheduledDeletions := st.scheduledDeletions ++ [taskId] }) := by
  unfold acknowledgeTask
  rw [hm]

/-- Amended C6: re-acknowledging an already-acknowledged task still
returns the task (with its session slot) for notification purposes, but
it does schedule a second deletion; the second deletion is a no-op on the
task map, so executing all scheduled deletions gives the same map as
executing those of the first acknowledgment. -/
theorem acknowledgeTask_reack (st : TaskQueueState) (taskId : String)
    (c1 c2 : Option TaskCompletion) (n1 n2 : Nat) (task : PendingTask)
    (hm : mapGet st.tasks taskId = some task) :
    ∃ sess1 sess2,
      (acknowledgeTask taskId c1 n1 st).1 =
        some ({ task with acknowledged := true }, sess1) ∧
      (acknowledgeTask taskId c2 n2 (acknowledgeTask taskId c1 n1 st).2).1 =
        some ({ task with acknowledged := true }, sess2) ∧
      (acknowledgeTask taskId c2 n2 (acknowledgeTask taskId c1 n1 st).2).2.scheduledDeletions =
        (acknowledgeTask taskId c1 n1 st).2.scheduledDeletions ++ [taskId] ∧
      ∀ m : List (String × PendingTask),
        runScheduledDeletions
            (acknowledgeTask taskId c2 n2 (acknowledgeTask taskId c1 n1 st).2).2.scheduledDeletions m =
          runScheduledDeletions
            (acknowledgeTask taskId c1 n1 st).2.scheduledDeletions m := by
  have h1 := acknowledgeTask_eq_found taskId c1 n1 st task hm
  have hm2 : mapGet (acknowledgeTask taskId c1 n1 st).2.tasks taskId =
      some { task with acknowledged := true } := by
    rw [h1]
    exact mapGet_mapSet_self st.tasks taskId { task with acknowledged := true }
  have h2 := acknowledgeTask_eq_found taskId c2 n2
    (acknowledgeTask taskId c1 n1 st).2 { task with acknowledged := true } hm2
  refine ⟨mapGet (touchSessionList st.sessions task.sessionId n1) task.sessionId,
    mapGet (touchSessionList (acknowledgeTask taskId c1 n1 st).2.sessions
      task.sessionId n2) task.sessionId, ?_, ?_, ?_, ?_⟩
  · rw [h1]
  · rw [h2]
  · rw [h2]
  · intro m
    rw [h2, h1]
    exact runScheduledDeletions_append_self st.scheduledDeletions taskId m

/-- Concrete run of amended C6: re-acknowledging task "a" returns it
again and appends a second scheduled deletion. -/
theorem acknowledgeTask_reack_witness :
    ∃ sess1 sess2,
      (acknowledgeTask "a" none 1
          { tasks := [("a", { id := "a", sessionId := "s", message := "hi",
                              createdAt := 0, acknowledged := false })]
            sessions := [("s", { id := "s", shortId := "s", name := "claude-s",
                                 cwd := "/w", createdAt := 0, lastActivity := 0 })]
            scheduledDeletions := [] }).1 =
        some ({ id := "a", sessionId := "s", message := "hi",
                createdAt := 0, acknowledged := true }, sess1) ∧
      (acknowledgeTask "a" none 2
          (acknowledgeTask "a" none 1
            { tasks := [("a", { id := "a", sessionId := "s", message := "hi",
                                createdAt := 0, acknowledged := false })]
              sessions := [("s", { id := "s", shortId := "s", name := "claude-s",
                                   cwd := "/w", createdAt := 0, lastActivity := 0 })]
              scheduledDeletions := [] }).2).1 =
        some ({ id := "a", sessionId := "s", message := "hi",
                createdAt := 0, acknowledged := true }, sess2) ∧
      (acknowledgeTask "a" none 2
          (acknowledgeTask "a" none 1
            { tasks := [("a", { id := "a", sessionId := "s", message := "hi",
                                createdAt := 0, acknowledged := false })]
              sessions := [("s", { id := "s", shortId := "s", name := "claude-s",
                                   cwd := "/w", createdAt := 0, lastActivity := 0 })]
              scheduledDeletions := [] }).2).2.scheduledDeletions =
        (acknowledgeTask "a" none 1
          { tasks := [("a", { id := "a", sessionId := "s", message := "hi",
                              createdAt := 0, acknowledged := false })]
            sessions := [("s", { id := "s", shortId := "s", name := "claude-s",
                                 cwd := "/w", createdAt := 0, lastActivity := 0 })]
            scheduledDeletions := [] }).2.scheduledDeletions ++ ["a"] ∧
      ∀ m : List (String × PendingTask),
        runScheduledDeletions
            (acknowledgeTask "a" none 2
              (acknowledgeTask "a" none 1
                { tasks := [("a", { id := "a", sessionId := "s", message := "hi",
                                    createdAt := 0, acknowledged := false })]
                  sessions := [("s", { id := "s", shortId := "s", name := "claude-s",
                                       cwd := "/w", createdAt := 0, lastActivity := 0 })]
                  scheduledDeletions := [] }).2).2.scheduledDeletions m =
          runScheduledDeletions
            (acknowledgeTask "a" none 1
              { tasks := [("a", { id := "a", sessionId := "s", message := "hi",
                                  createdAt := 0, acknowledged := false })]
                sessions := [("s", { id := "s", shortId := "s", name := "claude-s",
                                     cwd := "/w", createdAt := 0, lastActivity := 0 })]
                scheduledDeletions := [] }).2.scheduledDeletions m :=
  acknowledgeTask_reack
    { tasks := [("a", { id := "a", sessionId := "s", message := "hi",
                        createdAt := 0, acknowledged := false })]
      sessions := [("s", { id := "s", shortId := "s", name := "claude-s",
                           cwd := "/w", createdAt := 0, lastActivity := 0 })]
      scheduledDeletions := [] } "a" none none 1 2
    { id := "a", sessionId := "s", message := "hi",
      createdAt := 0, acknowledged := false }
    (by decide)

/-- Claim C6 as stated is false: the second acknowledgment of task "t"
does return the task, but it also schedules a second deletion — the
scheduled-deletion list grows from one entry to two. -/
theorem acknowledgeTask_reack_counterexample :
    ((acknowledgeTask "t" none 2
        (acknowledgeTask "t" none 1
          { tasks := [("t", { id := "t", sessionId := "s", message := "hello",
                              createdAt := 0, acknowledged := false })]
            sessions := [("s", { id := "s", shortId := "s", name := "claude-s",
                                 cwd := "/w", createdAt := 0, lastActivity := 0 })]
            scheduledDeletions := [] }).2).1.isSome = true) ∧
    ¬((acknowledgeTask "t" none 2
        (acknowledgeTask "t" none 1
          { tasks := [("t", { id := "t", sessionId := "s", message := "hello",
                              createdAt := 0, acknowledged := false })]
            sessions := [("s", { id := "s", shortId := "s", name := "claude-s",
                                 cwd := "/w", createdAt := 0, lastActivity := 0 })]
            scheduledDeletions := [] }).2).2.scheduledDeletions =
      (acknowledgeTask "t" none 1
        { tasks := [("t", { id := "t", sessionId := "s", message := "hello",
                            createdAt := 0, acknowledged := false })]
          sessions := [("s", { id := "s", shortId := "s", name := "claude-s",
                               cwd := "/w", createdAt := 0, lastActivity := 0 })]
          scheduledDeletions := [] }).2.scheduledDeletions) := by
  constructor
  · decide
  · decide

/-! ## Multi-step selection flow (C9) -/

theorem touchSessionList_length (sessions : List (String × Session))
    (sessionId : String) (now : Nat) :
    (touchSessionList sessions sessionId now).length = sessions.length := by
  induction sessions with
  | nil => rfl
  | cons p rest ih =>
      unfold touchSessionList
      by_cases h : p.1 = sessionId <;> simp [h, ih]

theorem addSequenceTask_sessions_length (freshId sessionId : String)
    (keystrokes : List String) (requestId : Option String) (now : Nat)
    (st : TaskQueueState) :
    (addSequenceTask freshId sessionId keystrokes requestId now st).2.sessions.length =
      st.sessions.length := by
  unfold addSequenceTask
  simp [touchSessionList_length]

theorem getAllSessions_length (st : TaskQueueState) :
    (getAllSessions st).length = st.sessions.length := by
  unfold getAllSessions
  rw [(List.perm_insertionSort sessionBefore (mapValues st.sessions)).length_eq]
  simp [mapValues]

theorem mqc_advanced (notificationId optionId taskFreshId : String) (now : Nat)
    (mq : List (String × MultiQuestionState)) (qs : TaskQueueState)
    (state : MultiQuestionState) (target : Session) (rest : List Session)
    (hst : mapGet mq notificationId = some state)
    (hga : getAllSessions qs = target :: rest)
    (hmid : state.currentIndex + 1 < state.questions.length) :
    handleMultiQuestionCallback notificationId optionId taskFreshId now mq qs =
      { outcome := MQOutcome.advanced
        task := some (addSequenceTask taskFreshId target.id [optionId, "Tab"] none now qs).1
        states := mapSet mq notificationId
          { state with
              answers := state.answers ++ [mqOptionLabel state optionId]
              currentIndex := state.currentIndex + 1 }
        queue := (addSequenceTask taskFreshId target.id [optionId, "Tab"] none now qs).2 } := by
  unfold handleMultiQuestionCallback
  simp only [hst, hga]
  rw [if_neg (by omega)]

theorem mqc_submitted (notificationId optionId taskFreshId : String) (now : Nat)
    (mq : List (String × MultiQuestionState)) (qs : TaskQueueState)
    (state : MultiQuestionState) (target : Session) (rest : List Session)
    (hst : mapGet mq notificationId = some state)
    (hga : getAllSessions qs = target :: rest)
    (hfin : state.currentIndex + 1 = state.questions.length) :
    handleMultiQuestionCallback notificationId optionId taskFreshId now mq qs =
      { outcome := MQOutcome.submitted
        task := some (addSequenceTask taskFreshId target.id [optionId, "Tab", "Enter"] none now qs).1
        states := mapDelete
          (mapSet mq notificationId
            { state with answers := state.answers ++ [mqOptionLabel state optionId] })
          notificationId
        queue := (addSequenceTask taskFreshId target.id [optionId, "Tab", "Enter"] none now qs).2 } := by
  unfold handleMultiQuestionCallback
  simp only [hst, hga]
  rw [if_pos (by omega)]

theorem addSequenceTask_fst_sequence (freshId sessionId : String)
    (keystrokes : List String) (requestId : Option String) (now : Nat)
    (st : TaskQueueState) :
    (addSequenceTask freshId sessionId keystrokes requestId now st).1.sequence =
      some keystrokes := rfl

theorem driveChoices_trace (notificationId : String) :
    ∀ (events : List ChoiceEvent) (mq : List (String × MultiQuestionState))
      (qs : TaskQueueState) (state : MultiQuestionState),
      mapGet mq notificationId = some state →
      qs.sessions ≠ [] →
      events ≠ [] →
      state.currentIndex + events.length = state.questions.length →
      (driveChoices notificationId events mq qs).1.map
          (fun p => (p.1, p.2.map (fun t => (t.sequence.getD []).length))) =
        List.replicate (events.length - 1) (MQOutcome.advanced, some 2) ++
          [(MQOutcome.submitted, some 3)] ∧
      mapGet (driveChoices notificationId events mq qs).2.1 notificationId = none := by
  intro events
  induction events with
  | nil => intro mq qs state hst hsess hne hlen; exact absurd rfl hne
  | cons e rest ih =>
      intro mq qs state hst hsess hne hlen
      have hga : ∃ target tl, getAllSessions qs = target :: tl := by
        cases hgs : getAllSessions qs with
        | nil =>
            exfalso
            have := getAllSessions_length qs
            rw [hgs] at this
            cases hsl : qs.sessions with
            | nil => exact hsess hsl
            | cons a b => rw [hsl] at this; simp at this
        | cons a b => exact ⟨a, b, rfl⟩
      obtain ⟨target, tl, hgs⟩ := hga
      cases rest with
      | nil =>
          have hfin : state.currentIndex + 1 = state.questions.length := by
            simpa using hlen
          have hstep := mqc_submitted notificationId e.optionId e.taskFreshId e.now
            mq qs state target tl hst hgs hfin
          unfold driveChoices
          rw [hstep]
          unfold driveChoices
          constructor
          · simp [addSequenceTask_fst_sequence]
          · simp [mapGet_mapDelete_self]
      | cons e2 rest2 =>
          have hmid : state.currentIndex + 1 < state.questions.length := by
            simp only [List.length_cons] at hlen
            omega
          have hstep := mqc_advanced notificationId e.optionId e.taskFreshId e.now
            mq qs state target tl hst hgs hmid
          have hst2 : mapGet (mapSet mq notificationId
              { state with
                  answers := state.answers ++ [mqOptionLabel state e.optionId]
                  currentIndex := state.currentIndex + 1 }) notificationId =
              some { state with
                  answers := state.answers ++ [mqOptionLabel state e.optionId]
                  currentIndex := state.currentIndex + 1 } :=
            mapGet_mapSet_self _ _ _
          have hsess2 : (addSequenceTask e.taskFreshId target.id [e.optionId, "Tab"]
              none e.now qs).2.sessions ≠ [] := by
            intro hcontra
            have hl := addSequenceTask_sessions_length e.taskFreshId target.id
              [e.optionId, "Tab"] none e.now qs
            rw [hcontra] at hl
            cases hsl : qs.sessions with
            | nil => exact hsess hsl
            | cons a b => rw [hsl] at hl; simp at hl
          have hlen2 : ({ state with
              answers := state.answers ++ [mqOptionLabel state e.optionId]
              currentIndex := state.currentIndex + 1 } : MultiQuestionState).currentIndex +
              (e2 :: rest2).length =
              ({ state with
                  answers := state.answers ++ [mqOptionLabel state e.optionId]
                  currentIndex := state.currentIndex + 1 } : MultiQuestionState).questions.length := by
            show state.currentIndex + 1 + (e2 :: rest2).length = state.questions.length
            simp only [List.length_cons] at hlen ⊢
            omega
          have hrest := ih (mapSet mq notificationId
              { state with
                  answers := state.answers ++ [mqOptionLabel state e.optionId]
                  currentIndex := state.currentIndex + 1 })
            (addSequenceTask e.taskFreshId target.id [e.optionId, "Tab"] none e.now qs).2
            _ hst2 hsess2 (by simp) hlen2
          unfold driveChoices
          rw [hstep]
          constructor
          · simp only [List.map_cons]
            rw [hrest.1]
            have : (e2 :: rest2).length - 1 + 1 = (e2 :: rest2).length := by simp
            simp [List.replicate_succ, addSequenceTask_fst_sequence]
          · exact hrest.2

/-- C9: in the multi-step selection flow, a choice on a non-final
sub-question records the answer, enqueues the two-key sequence
`[option, "Tab"]` and increments the index; the choice on the final
sub-question enqueues the three-key sequence `[option, "Tab", "Enter"]`
and deletes the state; and exactly N choice events drive a flow with N
sub-questions from index 0 to submission, enqueueing N − 1 length-2
sequences followed by one length-3 sequence. -/
theorem multiStep_selection_flow :
    (∀ (notificationId optionId taskFreshId : String) (now : Nat)
        (mq : List (String × MultiQuestionState)) (qs : TaskQueueState)
        (state : MultiQuestionState) (target : Session) (rest : List Session),
      mapGet mq notificationId = some state →
      getAllSessions qs = target :: rest →
      state.currentIndex + 1 < state.questions.length →
      handleMultiQuestionCallback notificationId optionId taskFreshId now mq qs =
        { outcome := MQOutcome.advanced
          task := some (addSequenceTask taskFreshId target.id [optionId, "Tab"] none now qs).1
          states := mapSet mq notificationId
            { state with
                answers := state.answers ++ [mqOptionLabel state optionId]
                currentIndex := state.currentIndex + 1 }
          queue := (addSequenceTask taskFreshId target.id [optionId, "Tab"] none now qs).2 }) ∧
    (∀ (notificationId optionId taskFreshId : String) (now : Nat)
        (mq : List (String × MultiQuestionState)) (qs : TaskQueueState)
        (state : MultiQuestionState) (target : Session) (rest : List Session),
      mapGet mq notificationId = some state →
      getAllSessions qs = target :: rest →
      state.currentIndex + 1 = state.questions.length →
      handleMultiQuestionCallback notificationId optionId taskFreshId now mq qs =
        { outcome := MQOutcome.submitted
          task := some (addSequenceTask taskFreshId target.id [optionId, "Tab", "Enter"] none now qs).1
          states := mapDelete
            (mapSet mq notificationId
              { state with answers := state.answers ++ [mqOptionLabel state optionId] })
            notificationId
          queue := (addSequenceTask taskFreshId target.id [optionId, "Tab", "Enter"] none now qs).2 }) ∧
    (∀ (notificationId : String) (events : List ChoiceEvent)
        (mq : List (String × MultiQuestionState)) (qs : TaskQueueState)
        (state : MultiQuestionState),
      mapGet mq notificationId = some state →
      qs.sessions ≠ [] →
      events ≠ [] →
      state.currentIndex + events.length = state.questions.length →
      (driveChoices notificationId events mq qs).1.map
          (fun p => (p.1, p.2.map (fun t => (t.sequence.getD []).length))) =
        List.replicate (events.length - 1) (MQOutcome.advanced, some 2) ++
          [(MQOutcome.submitted, some 3)] ∧
      mapGet (driveChoices notificationId events mq qs).2.1 notificationId = none) := by
  refine ⟨?_, ?_, ?_⟩
  · intro notificationId optionId taskFreshId now mq qs state target rest hst hga hmid
    exact mqc_advanced notificationId optionId taskFreshId now mq qs state target rest
      hst hga hmid
  · intro notificationId optionId taskFreshId now mq qs state target rest hst hga hfin
    exact mqc_submitted notificationId optionId taskFreshId now mq qs state target rest
      hst hga hfin
  · intro notificationId events mq qs state hst hsess hne hlen
    exact driveChoices_trace notificationId events mq qs state hst hsess hne hlen

/-- Concrete run of C9: a two-sub-question flow is driven to submission
by exactly two choices, the first enqueueing a length-2 sequence and the
second a length-3 sequence, after which the state is gone. -/
theorem multiStep_selection_flow_witness :
    (driveChoices "n"
        [ { optionId := "1", taskFreshId := "k1", now := 10 },
          { optionId := "2", taskFreshId := "k2", now := 20 } ]
        [("n", { sessionId := "ext", questions :=
                  [ { header := "h1", question := "q1",
                      options := [{ id := "1", label := "Yes" }, { id := "2", label := "No" }] },
                    { header := "h2", question := "q2",
                      options := [{ id := "1", label := "Red" }, { id := "2", label := "Blue" }] } ]
                 currentIndex := 0, answers := [], createdAt := 0 })]
        { tasks := []
          sessions := [("sess1", { id := "sess1", shortId := "sess1", name := "claude",
                                   cwd := "/w", createdAt := 0, lastActivity := 5 })]
          scheduledDeletions := [] }).1.map
      (fun p => (p.1, p.2.map (fun t => (t.sequence.getD []).length))) =
      [(MQOutcome.advanced, some 2), (MQOutcome.submitted, some 3)] ∧
    mapGet (driveChoices "n"
        [ { optionId := "1", taskFreshId := "k1", now := 10 },
          { optionId := "2", taskFreshId := "k2", now := 20 } ]
        [("n", { sessionId := "ext", questions :=
                  [ { header := "h1", question := "q1",
                      options := [{ id := "1", label := "Yes" }, { id := "2", label := "No" }] },
                    { header := "h2", question := "q2",
                      options := [{ id := "1", label := "Red" }, { id := "2", label := "Blue" }] } ]
                 currentIndex := 0, answers := [], createdAt := 0 })]
        { tasks := []
          sessions := [("sess1", { id := "sess1", shortId := "sess1", name := "claude",
                                   cwd := "/w", createdAt := 0, lastActivity := 5 })]
          scheduledDeletions := [] }).2.1 "n" = none :=
  multiStep_selection_flow.2.2 "n"
    [ { optionId := "1", taskFreshId := "k1", now := 10 },
      { optionId := "2", taskFreshId := "k2", now := 20 } ]
    [("n", { sessionId := "ext", questions :=
              [ { header := "h1", question := "q1",
                  options := [{ id := "1", label := "Yes" }, { id := "2", label := "No" }] },
                { header := "h2", question := "q2",
                  options := [{ id := "1", label := "Red" }, { id := "2", label := "Blue" }] } ]
             currentIndex := 0, answers := [], createdAt := 0 })]
    { tasks := []
      sessions := [("sess1", { id := "sess1", shortId := "sess1", name := "claude",
                               cwd := "/w", createdAt := 0, lastActivity := 5 })]
      scheduledDeletions := [] }
    { sessionId := "ext", questions :=
        [ { header := "h1", question := "q1",
            options := [{ id := "1", label := "Yes" }, { id := "2", label := "No" }] },
          { header := "h2", question := "q2",
            options := [{ id := "1", label := "Red" }, { id := "2", label := "Blue" }] } ]
      currentIndex := 0, answers := [], createdAt := 0 }
    (by decide) (by decide) (by decide) (by decide)

end ClaudeCall
